import Mathlib

/-!
# Verification of the TDS Virtual TA answer pipeline

Shallow embedding of the answer-synthesis pipeline of the `virtual_ta`
Django app (`api/virtual_ta/{utils,views,ai_service,data_scraper}.py`)
together with proofs about it: the Response Validator's output contract,
the orchestrator's daily-limit short circuit, the retry/quota loop of the
Generation Client, the relevance-scoring formulas, the link extractors and
the two fallback tiers.

Machine strings are modelled as Lean `String` (Python `len` counts
characters, as does `String.length`); Python dicts and heterogeneous values
are modelled by the closed universe `PyVal` below; the external generation
endpoint is modelled by an explicit outcome oracle.
-/

namespace VirtualTA

/-! ## Python string primitives -/

/-- Python `str.strip()`: remove leading and trailing whitespace. -/
def pyStrip (s : String) : String :=
  String.mk (((s.data.dropWhile Char.isWhitespace).reverse.dropWhile Char.isWhitespace).reverse)

/-- Split a character list at every separator character (Python
`str.split(sep)` semantics: empty pieces kept, one piece per separator).
`String.splitOn`'s position-based internals do not reduce in the kernel,
hence the character-list form. -/
def splitBy (p : Char → Bool) (cs : List Char) : List (List Char) :=
  match cs with
  | [] => [[]]
  | c :: t =>
    if p c then [] :: splitBy p t
    else
      match splitBy p t with
      | [] => [[c]]
      | h :: t2 => (c :: h) :: t2

/-- Python `str.split()` with no argument: split on whitespace, dropping
empty pieces. -/
def pySplit (s : String) : List String :=
  ((splitBy Char.isWhitespace s.data).map String.mk).filter (fun w => w ≠ "")

/-- Python `s.split(sep)` for a one-character separator. -/
def pySplitSep (sep : Char) (s : String) : List String :=
  (splitBy (fun c => c = sep) s.data).map String.mk

/-- `hasInfix l₁ l₂`: `l₁` occurs as a contiguous run inside `l₂`. -/
def hasInfix (l₁ l₂ : List Char) : Bool :=
  match l₂ with
  | [] => l₁.isEmpty
  | _ :: t => l₁.isPrefixOf l₂ || hasInfix l₁ t

/-- Python substring test `a in b`. -/
def isSubstr (a b : String) : Bool :=
  hasInfix a.data b.data

/-- Python `str.lower()` (ASCII case mapping, which covers every string
this code lowercases).  `String.toLower`'s well-founded internals do not
reduce in the kernel, so the character-list form is used. -/
def pyLower (s : String) : String := String.mk (s.data.map Char.toLower)

/-- Python `a.startswith(b)` (here written with the pattern first):
`strStarts pat s` holds when `s` begins with `pat`. -/
def strStarts (pat s : String) : Bool :=
  pat.data.isPrefixOf s.data

theorem string_length_mk (l : List Char) : (String.mk l).length = l.length := rfl

theorem string_length_pos (a : String) (h : a ≠ "") : 1 ≤ a.length := by
  cases a with
  | mk l =>
    cases l with
    | nil => exact absurd rfl h
    | cons c cs => exact Nat.succ_le_succ (Nat.zero_le _)

theorem isPrefixOf_append (l₁ l₂ : List Char) : l₁.isPrefixOf (l₁ ++ l₂) = true := by
  induction l₁ with
  | nil => simp
  | cons a t ih => rw [List.cons_append, List.isPrefixOf_cons₂]; simp [ih]

theorem ellipsis_data_length : ("...".data).length = 3 := rfl

/-! ## Data model: payloads and the Python value universe -/

/-- One citation link of the output contract. -/
structure Link where
  url : String
  text : String
deriving DecidableEq, Repr

/-- The output contract: `{answer, links}`. -/
structure AnswerPayload where
  answer : String
  links : List Link
deriving DecidableEq, Repr

/-- Closed universe of Python values the Response Validator can receive:
`None`, booleans, integers, strings, lists, and string-keyed dicts. -/
inductive PyVal where
  | none
  | bool (b : Bool)
  | int (n : Int)
  | str (s : String)
  | list (xs : List PyVal)
  | dict (fields : List (String × PyVal))

/-- Python `str(v)` on this universe.  Container rendering is abbreviated
to a fixed bracketed form: the validator only ever tests the result for
emptiness after stripping and for an `"http"` head, and Python renders
lists as `[...]` and dicts as braced text, so every decision taken on the
rendering agrees with CPython's. -/
def pyStr : PyVal → String
  | .none => "None"
  | .bool true => "True"
  | .bool false => "False"
  | .int n => toString n
  | .str s => s
  | .list _ => "[...]"
  | .dict _ => "\x7b...\x7d"

/-! ## Response Validator (`utils.py` lines 9-75, duplicated verbatim in
`views.py` lines 266-327) -/

/-- The default course-forum link injected whenever no valid link survives. -/
def defaultLink : Link :=
  ⟨"https://discourse.onlinedegree.iitm.ac.in/", "TDS Course Forum"⟩

/-- The safe-default payload returned when validation raises internally. -/
def validationFailedPayload : AnswerPayload :=
  ⟨"Response validation failed. Please try again.", [defaultLink]⟩

/-- `utils.py` lines 32-36: truncate an over-long answer to 2000 characters,
`answer[:1997] + "..."`. -/
def truncateAnswer (a : String) : String :=
  if 2000 < a.length then String.mk (a.data.take 1997 ++ "...".data) else a

/-- `utils.py` lines 16-36: the answer-normalization path.  `raw` is the
value found under the `'answer'` key (`Option.none` when the key is
missing). -/
def normalizeAnswer (raw : Option PyVal) : String :=
  let answer0 :=
    match raw.getD (.str "Unable to generate a proper response.") with
    | .str s => s
    | .none => "No answer provided."
    | v => pyStr v
  let answer1 := pyStrip answer0
  let answer2 := if answer1 = "" then "Unable to provide a meaningful answer." else answer1
  truncateAnswer answer2

/-- `utils.py` lines 44-54: keep a link only when it is a dict carrying
`'url'` and `'text'` whose stripped url is non-empty and starts with
`"http"` and whose stripped text is non-empty. -/
def validateLink (link : PyVal) : Option Link :=
  match link with
  | .dict fields =>
    match fields.lookup "url", fields.lookup "text" with
    | some u, some t =>
      if pyStrip (pyStr u) ≠ "" ∧ pyStrip (pyStr t) ≠ "" ∧ strStarts "http" (pyStrip (pyStr u))
      then some ⟨pyStrip (pyStr u), pyStrip (pyStr t)⟩
      else none
    | _, _ => none
  | _ => none

/-- `utils.py` lines 39-41: a non-list `'links'` value is replaced by `[]`
(and a missing key was already defaulted to `[]`). -/
def rawLinkList (v : Option PyVal) : List PyVal :=
  match v.getD (.list []) with
  | .list xs => xs
  | _ => []

/-- `utils.py` lines 43-61: filter the raw links, then inject the default
course-forum link if nothing survived. -/
def validateLinks (v : Option PyVal) : List Link :=
  if (rawLinkList v).filterMap validateLink = [] then [defaultLink]
  else (rawLinkList v).filterMap validateLink

/-- `validate_response_structure` (`utils.py` lines 9-75): total
normalization of an arbitrary payload into the output contract.  A
non-dict input raises `ValueError`, which the enclosing `except` turns
into the fixed safe-default payload; `json.dumps` cannot fail on the value
shapes produced here, so the serialization self-check never fires. -/
def validate_response_structure (response : PyVal) : AnswerPayload :=
  match response with
  | .dict fields => ⟨normalizeAnswer (fields.lookup "answer"), validateLinks (fields.lookup "links")⟩
  | _ => validationFailedPayload

theorem truncateAnswer_bounds (a : String) (h : a ≠ "") :
    1 ≤ (truncateAnswer a).length ∧ (truncateAnswer a).length ≤ 2000 := by
  unfold truncateAnswer
  split
  · next hlong =>
    have hlen : (String.mk (a.data.take 1997 ++ "...".data)).length = 2000 := by
      rw [string_length_mk, List.length_append, List.length_take, ellipsis_data_length]
      have hd : a.length = a.data.length := rfl
      omega
    omega
  · next hshort =>
    exact ⟨string_length_pos a h, by omega⟩

theorem normalizeAnswer_bounds (raw : Option PyVal) :
    1 ≤ (normalizeAnswer raw).length ∧ (normalizeAnswer raw).length ≤ 2000 := by
  unfold normalizeAnswer
  apply truncateAnswer_bounds
  split
  · simp
  · next hne => exact hne

theorem validateLink_props (x : PyVal) (l : Link) (h : validateLink x = some l) :
    l.url ≠ "" ∧ strStarts "http" l.url = true ∧ l.text ≠ "" := by
  unfold validateLink at h
  split at h
  · split at h
    · split at h
      · next hcond =>
        obtain ⟨h1, h2, h3⟩ := hcond
        injection h with h
        subst h
        exact ⟨h1, h3, h2⟩
      · exact absurd h (by simp)
    · exact absurd h (by simp)
  · exact absurd h (by simp)

theorem validateLinks_len (v : Option PyVal) : 1 ≤ (validateLinks v).length := by
  unfold validateLinks
  split
  · decide
  · next hne => exact List.length_pos.mpr hne

theorem validateLinks_props (v : Option PyVal) :
    ∀ l ∈ validateLinks v, l.url ≠ "" ∧ strStarts "http" l.url = true ∧ l.text ≠ "" := by
  intro l hl
  unfold validateLinks at hl
  split at hl
  · simp only [List.mem_singleton] at hl
    subst hl
    exact ⟨by decide, by decide, by decide⟩
  · obtain ⟨x, _, hx⟩ := List.mem_filterMap.mp hl
    exact validateLink_props x l hx

/-- C1: for every input payload of any shape — non-dict, missing keys,
non-string answer, empty or whitespace answer, malformed links — the
Response Validator returns without raising, and its result satisfies the
output contract: `1 ≤ len(answer) ≤ 2000`, at least one link, and every
link has a non-empty url starting with `"http"` and non-empty text. -/
theorem C1_validator_total_contract (response : PyVal) :
    1 ≤ (validate_response_structure response).answer.length ∧
    (validate_response_structure response).answer.length ≤ 2000 ∧
    1 ≤ (validate_response_structure response).links.length ∧
    ∀ l ∈ (validate_response_structure response).links,
      l.url ≠ "" ∧ strStarts "http" l.url = true ∧ l.text ≠ "" := by
  unfold validate_response_structure
  split
  · exact ⟨(normalizeAnswer_bounds _).1, (normalizeAnswer_bounds _).2,
      validateLinks_len _, validateLinks_props _⟩
  · refine ⟨by decide, by decide, by decide, ?_⟩
    intro l hl
    simp only [validationFailedPayload, List.mem_singleton] at hl
    subst hl
    exact ⟨by decide, by decide, by decide⟩

/-- C1 witness: the contract evaluated at a concrete malformed payload
(answer is an integer, links is a non-list). -/
theorem C1_validator_total_contract_witness :
    (validate_response_structure (.dict [("answer", .int 7), ("links", .bool true)])).links.length = 1 ∧
    (defaultLink.url ≠ "" ∧ strStarts "http" defaultLink.url = true ∧ defaultLink.text ≠ "") := by
  have h := C1_validator_total_contract (.dict [("answer", .int 7), ("links", .bool true)])
  refine ⟨by decide, h.2.2.2 defaultLink (by decide)⟩

/-- C9: an answer longer than 2000 characters is truncated to exactly 2000
characters ending in the ellipsis marker `"..."`; an answer of length at
most 2000 passes through untruncated. -/
theorem C9_answer_truncation (s : String) (hs : pyStrip s = s) (hne : s ≠ "") :
    (2000 < s.length →
      (validate_response_structure (.dict [("answer", .str s)])).answer.length = 2000 ∧
      "...".data <:+ (validate_response_structure (.dict [("answer", .str s)])).answer.data) ∧
    (s.length ≤ 2000 →
      (validate_response_structure (.dict [("answer", .str s)])).answer = s) := by
  have hans : (validate_response_structure (.dict [("answer", .str s)])).answer
      = truncateAnswer s := by
    simp [validate_response_structure, normalizeAnswer, List.lookup, hs, hne]
  constructor
  · intro hlong
    rw [hans]
    unfold truncateAnswer
    rw [if_pos hlong]
    constructor
    · rw [string_length_mk, List.length_append, List.length_take, ellipsis_data_length]
      have hd : s.length = s.data.length := rfl
      omega
    · exact List.suffix_append _ _
  · intro hshort
    rw [hans]
    unfold truncateAnswer
    rw [if_neg (by omega)]

/-- A 2500-character answer, exactly Scenario 6 of the spec. -/
def xs2500 : String := String.mk (List.replicate 2500 'x')

theorem dropWhile_replicate_of_neg {p : Char → Bool} {c : Char} (h : p c = false) (n : Nat) :
    List.dropWhile p (List.replicate n c) = List.replicate n c := by
  cases n with
  | zero => rfl
  | succ m => rw [List.replicate_succ, List.dropWhile_cons, h]; simp

theorem pyStrip_replicate_x (n : Nat) :
    pyStrip (String.mk (List.replicate n 'x')) = String.mk (List.replicate n 'x') := by
  unfold pyStrip
  have hx : Char.isWhitespace 'x' = false := by decide
  simp [dropWhile_replicate_of_neg hx, List.reverse_replicate]

theorem xs2500_ne_empty : xs2500 ≠ "" := by
  intro h
  have hd : List.replicate 2500 'x' = ([] : List Char) := congrArg String.data h
  have hlen := congrArg List.length hd
  rw [List.length_replicate, List.length_nil] at hlen
  exact absurd hlen (by decide)

theorem xs2500_length : xs2500.length = 2500 := by
  rw [xs2500, string_length_mk, List.length_replicate]

/-- C9 witness: the 2500-x answer comes back with length 2000 and the
ellipsis marker as suffix. -/
theorem C9_answer_truncation_witness :
    (validate_response_structure (.dict [("answer", .str xs2500)])).answer.length = 2000 ∧
    "...".data <:+ (validate_response_structure (.dict [("answer", .str xs2500)])).answer.data := by
  have h := C9_answer_truncation xs2500 (pyStrip_replicate_x 2500) xs2500_ne_empty
  exact h.1 (by rw [xs2500_length]; omega)

/-! ## Link Extractor (`ai_service.py` lines 182-223 and 345-365)

Both extractors scan for the regex
`https://discourse\.onlinedegree\.iitm\.ac\.in/t/[^/\s]+/\d+(?:/\d+)?`
with `re.findall`. -/

/-- The fixed forum base every produced link lives under. -/
def discourseBase : String := "https://discourse.onlinedegree.iitm.ac.in"

/-- The literal head of the forum-topic regex. -/
def topicHead : String := "https://discourse.onlinedegree.iitm.ac.in/t/"

/-- Try to match the forum-topic regex at the head of `cs`: the literal
head, a non-empty run of characters that are neither `/` nor whitespace,
a `/`, a non-empty digit run, then optionally `/` and a second non-empty
digit run (every run taken greedily, exactly as the regex engine does:
the character classes exclude the delimiters, so the greedy runs admit no
backtracking).  Returns the matched characters and how many characters of
`cs` the match consumed. -/
def matchTopicAt (cs : List Char) : Option (List Char × Nat) :=
  if topicHead.data.isPrefixOf cs then
    let rest0 := cs.drop topicHead.data.length
    let seg := rest0.takeWhile (fun c => c ≠ '/' && !c.isWhitespace)
    if seg.isEmpty then none
    else
      match rest0.drop seg.length with
      | '/' :: rest1 =>
        let ds := rest1.takeWhile Char.isDigit
        if ds.isEmpty then none
        else
          match rest1.drop ds.length with
          | '/' :: rest2 =>
            let ds2 := rest2.takeWhile Char.isDigit
            if ds2.isEmpty then
              some (topicHead.data ++ seg ++ '/' :: ds,
                topicHead.data.length + seg.length + 1 + ds.length)
            else
              some (topicHead.data ++ seg ++ '/' :: ds ++ '/' :: ds2,
                topicHead.data.length + seg.length + 1 + ds.length + 1 + ds2.length)
          | _ => some (topicHead.data ++ seg ++ '/' :: ds,
              topicHead.data.length + seg.length + 1 + ds.length)
      | _ => none
  else none

theorem topicHead_data_length : topicHead.data.length = 44 := rfl

theorem matchTopicAt_consumed_pos (cs m : List Char) (k : Nat)
    (h : matchTopicAt cs = some (m, k)) : 1 ≤ k := by
  have h44 := topicHead_data_length
  simp only [matchTopicAt] at h
  split at h
  · split at h
    · exact absurd h (by simp)
    · split at h
      · split at h
        · exact absurd h (by simp)
        · split at h
          · split at h
            · simp only [Option.some.injEq, Prod.mk.injEq] at h
              omega
            · simp only [Option.some.injEq, Prod.mk.injEq] at h
              omega
          · simp only [Option.some.injEq, Prod.mk.injEq] at h
            omega
      · exact absurd h (by simp)
  · exact absurd h (by simp)

theorem matchTopicAt_starts (cs m : List Char) (k : Nat)
    (h : matchTopicAt cs = some (m, k)) : topicHead.data.isPrefixOf m = true := by
  simp only [matchTopicAt] at h
  split at h
  · split at h
    · exact absurd h (by simp)
    · split at h
      · split at h
        · exact absurd h (by simp)
        · split at h
          · split at h
            · simp only [Option.some.injEq, Prod.mk.injEq] at h
              rw [← h.1]
              simp only [List.append_assoc]
              exact isPrefixOf_append _ _
            · simp only [Option.some.injEq, Prod.mk.injEq] at h
              rw [← h.1]
              simp only [List.append_assoc]
              exact isPrefixOf_append _ _
          · simp only [Option.some.injEq, Prod.mk.injEq] at h
            rw [← h.1]
            simp only [List.append_assoc]
            exact isPrefixOf_append _ _
      · exact absurd h (by simp)
  · exact absurd h (by simp)

/-- `re.findall` of the forum-topic regex, worker: scan left to right, emit
each leftmost match and continue after it; on no match advance one
character.  `fuel` bounds the recursion; by `findTopicUrlsAux_fuel` any
fuel of at least `cs.length` gives the same result, so the `fuel = 0`
cut-off never fires on the fuel the wrapper supplies. -/
def findTopicUrlsAux : Nat → List Char → List String
  | 0, _ => []
  | _ + 1, [] => []
  | fuel + 1, c :: t =>
    match matchTopicAt (c :: t) with
    | some (m, k) => String.mk m :: findTopicUrlsAux fuel ((c :: t).drop k)
    | none => findTopicUrlsAux fuel t

/-- `re.findall` of the forum-topic regex over a character list. -/
def findTopicUrls (cs : List Char) : List String := findTopicUrlsAux cs.length cs

/-- All URLs the regex finds in a context string. -/
def topicUrlsOf (context : String) : List String := findTopicUrls context.data

theorem findTopicUrlsAux_fuel (fuel fuel' : Nat) (cs : List Char)
    (h : cs.length ≤ fuel) (h' : cs.length ≤ fuel') :
    findTopicUrlsAux fuel cs = findTopicUrlsAux fuel' cs := by
  induction fuel generalizing fuel' cs with
  | zero =>
    have hnil : cs = [] := List.length_eq_zero.mp (Nat.le_zero.mp h)
    subst hnil
    cases fuel' <;> rfl
  | succ f ih =>
    cases cs with
    | nil => cases fuel' <;> rfl
    | cons c t =>
      obtain ⟨f', rfl⟩ : ∃ f'', fuel' = f'' + 1 := by
        cases fuel' with
        | zero => simp at h'
        | succ n => exact ⟨n, rfl⟩
      simp only [List.length_cons] at h h'
      cases hm : matchTopicAt (c :: t) with
      | some mk =>
        obtain ⟨m, k⟩ := mk
        have hk := matchTopicAt_consumed_pos _ _ _ hm
        have hd : ((c :: t).drop k).length ≤ t.length := by
          rw [List.length_drop]
          simp only [List.length_cons]
          omega
        simp only [findTopicUrlsAux, hm]
        rw [ih f' _ (by omega) (by omega)]
      | none =>
        simp only [findTopicUrlsAux, hm]
        exact ih f' t (by omega) (by omega)

theorem mem_findTopicUrlsAux_starts (fuel : Nat) (cs : List Char) (u : String)
    (h : u ∈ findTopicUrlsAux fuel cs) : strStarts topicHead u = true := by
  induction fuel generalizing cs with
  | zero => simp [findTopicUrlsAux] at h
  | succ f ih =>
    cases cs with
    | nil => simp [findTopicUrlsAux] at h
    | cons c t =>
      rw [findTopicUrlsAux] at h
      cases hm : matchTopicAt (c :: t) with
      | some mk =>
        obtain ⟨m, k⟩ := mk
        simp only [hm] at h
        rcases List.mem_cons.mp h with h1 | h1
        · subst h1
          exact matchTopicAt_starts _ _ _ hm
        · exact ih _ h1
      | none =>
        simp only [hm] at h
        exact ih _ h

theorem mem_topicUrlsOf_starts (context : String) (u : String) (h : u ∈ topicUrlsOf context) :
    strStarts topicHead u = true :=
  mem_findTopicUrlsAux_starts _ _ _ h

/-- Python `str.title()` (word boundaries approximated by alphabetic
characters, which agrees with CPython on the hyphen-and-letter segment
names this code titles). -/
def titleAux : Bool → List Char → List Char
  | _, [] => []
  | startOfWord, c :: t =>
    if c.isAlpha then
      (if startOfWord then c.toUpper else c.toLower) :: titleAux false t
    else c :: titleAux true t

/-- Python `str.title()` on a string. -/
def pyTitle (s : String) : String := String.mk (titleAux true s.data)

/-- `re.search(r'/t/([^/]+)/', url)`: leftmost `/t/` followed by a
non-empty slash-free run and a closing `/`; returns the run. -/
def searchTopicSeg (cs : List Char) : Option (List Char) :=
  match cs with
  | [] => none
  | _ :: t =>
    if "/t/".data.isPrefixOf cs then
      let body := cs.drop 3
      let seg := body.takeWhile (fun c => c ≠ '/')
      if seg.isEmpty then searchTopicSeg t
      else
        match body.drop seg.length with
        | '/' :: _ => some seg
        | _ => searchTopicSeg t
    else searchTopicSeg t

/-- The per-URL label of `_extract_relevant_links` (`ai_service.py` lines
196-201): from the `/t/<segment>/` search, hyphens to spaces, title-cased,
plus `" Discussion"`; the `else` label cannot fire on a regex match but is
kept faithfully. -/
def relevantLinkLabel (p : Nat × String) : String :=
  match searchTopicSeg p.2.data with
  | some seg =>
      pyTitle (String.mk (seg.map (fun c => if c = '-' then ' ' else c))) ++ " Discussion"
  | none => "Related Discussion " ++ toString (p.1 + 1)

/-- `AIService._extract_relevant_links` (`ai_service.py` lines 182-223).
Python's `list(set(discourse_urls))` deduplicates with unspecified
iteration order; it is modelled by `List.dedup`, and every property proved
about this function is insensitive to that order.  With no URL at all, a
question-keyword guess picks between the assignment-help link and the
generic forum link. -/
def relevantLinkCandidates (context : String) : List Link :=
  ((topicUrlsOf context).dedup.take 2).enum.map (fun p => Link.mk p.2 (relevantLinkLabel p))

def extract_relevant_links (context question : String) : List Link :=
  if relevantLinkCandidates context = [] then
    if ["assignment", "homework", "submit"].any (fun w => isSubstr w (pyLower question)) then
      [⟨"https://discourse.onlinedegree.iitm.ac.in/c/degree-program/tools-in-data-science/",
        "TDS Assignment Help"⟩]
    else [⟨"https://discourse.onlinedegree.iitm.ac.in/", "TDS Course Forum"⟩]
  else relevantLinkCandidates context

/-- `MultiAIService._extract_links_from_context` (`ai_service.py` lines
345-365): keep the first 2 regex matches in discovery order — with no
deduplication — labelled `Related Discussion {i+1}`; default to the
course-forum link when none is found. -/
def contextLinkCandidates (context : String) : List Link :=
  ((topicUrlsOf context).take 2).enum.map
    (fun p => Link.mk p.2 ("Related Discussion " ++ toString (p.1 + 1)))

def extract_links_from_context (context : String) : List Link :=
  if contextLinkCandidates context = [] then
    [⟨"https://discourse.onlinedegree.iitm.ac.in/", "TDS Course Forum"⟩]
  else contextLinkCandidates context

/-! ## Fallback Engine (`ai_service.py` lines 225-257 and 306-343) -/

/-- `any(word in question_lower for word in ws)`. -/
def kwAny (ws : List String) (questionLower : String) : Bool :=
  ws.any (fun w => isSubstr w questionLower)

/-- Keyword bucket of `_fallback_response`, AI/model tier. -/
def aiKeywords : List String := ["gpt", "openai", "api", "model", "ai"]

/-- Keyword bucket of `_fallback_response`, Python/setup tier. -/
def pythonKeywords : List String := ["python", "setup", "install", "environment", "pip"]

/-- Keyword bucket of `_fallback_response`, assignment tier. -/
def assignmentKeywords : List String := ["assignment", "submit", "deadline", "homework", "ga"]

/-- Keyword bucket of `_fallback_response`, version-control tier. -/
def gitKeywords : List String := ["git", "version", "control", "github", "commit"]

/-- Keyword bucket of `_fallback_response`, debugging tier. -/
def debugKeywords : List String := ["error", "debug", "fix", "problem", "issue"]

/-- Canned AI/model answer of `_fallback_response`. -/
def aiAnswer : String :=
  "For TDS assignments requiring specific AI models like GPT-3.5-turbo, use the OpenAI API directly as specified in the assignment requirements. The assignment may specify a particular model version for consistency in grading."

/-- Canned Python/setup answer of `_fallback_response`. -/
def pythonAnswer : String :=
  "For Python setup in TDS: 1) Install Python 3.8+, 2) Create virtual environment: \x27python -m venv tds_env\x27, 3) Activate: \x27source tds_env/bin/activate\x27 (Linux/Mac) or \x27tds_env\\Scripts\\activate\x27 (Windows), 4) Install packages: \x27pip install -r requirements.txt\x27."

/-- Canned assignment answer of `_fallback_response`. -/
def assignmentAnswer : String :=
  "For TDS assignments: 1) Follow the specified format, 2) Include proper documentation and comments, 3) Test your code thoroughly, 4) Submit through the designated platform, 5) Check discourse for assignment-specific clarifications and deadlines."

/-- Canned version-control answer of `_fallback_response`. -/
def gitAnswer : String :=
  "For Git in TDS: 1) Initialize: \x27git init\x27, 2) Add files: \x27git add .\x27, 3) Commit: \x27git commit -m \"meaningful message\"\x27, 4) Push to GitHub: \x27git push origin main\x27. Use version control for all assignments."

/-- Canned debugging answer of `_fallback_response`. -/
def debugAnswer : String :=
  "For debugging in TDS: 1) Read error messages carefully, 2) Check your code syntax and logic, 3) Use print statements for debugging, 4) Search discourse for similar issues, 5) Share your error on the forum for help."

/-- Canned generic answer of `_fallback_response`. -/
def genericAnswer : String :=
  "I\x27m currently experiencing high demand. Please check the TDS course materials on the learning platform or post your question on the discourse forum where TAs and fellow students can provide detailed assistance."

/-- `AIService._fallback_response` (`ai_service.py` lines 225-257): first
matching keyword bucket in the fixed if/elif order wins; one forum link
whose text names the bucket.  (`question.lower() if question else ""` — for
the string type, `pyLower "" = ""`, so `pyLower` alone is faithful.) -/
def fallback_response (question : String) : AnswerPayload :=
  if kwAny aiKeywords (pyLower question) then
    ⟨aiAnswer, [⟨"https://discourse.onlinedegree.iitm.ac.in/", "AI Model Usage Help"⟩]⟩
  else if kwAny pythonKeywords (pyLower question) then
    ⟨pythonAnswer, [⟨"https://discourse.onlinedegree.iitm.ac.in/", "Python Setup Help"⟩]⟩
  else if kwAny assignmentKeywords (pyLower question) then
    ⟨assignmentAnswer, [⟨"https://discourse.onlinedegree.iitm.ac.in/", "Assignment Guidelines"⟩]⟩
  else if kwAny gitKeywords (pyLower question) then
    ⟨gitAnswer, [⟨"https://discourse.onlinedegree.iitm.ac.in/", "Git Version Control"⟩]⟩
  else if kwAny debugKeywords (pyLower question) then
    ⟨debugAnswer, [⟨"https://discourse.onlinedegree.iitm.ac.in/", "Debugging Help"⟩]⟩
  else
    ⟨genericAnswer, [⟨"https://discourse.onlinedegree.iitm.ac.in/", "TDS Course Forum"⟩]⟩

/-- Keyword bucket of `_intelligent_fallback`, AI/model tier (note: no
`"ai"`, unlike `_fallback_response`). -/
def ctxAiKeywords : List String := ["gpt", "openai", "api", "model"]

/-- Keyword bucket of `_intelligent_fallback`, Python tier. -/
def ctxPythonKeywords : List String := ["python", "setup", "environment"]

/-- Keyword bucket of `_intelligent_fallback`, assignment tier. -/
def ctxAssignKeywords : List String := ["assignment", "submit", "homework"]

/-- Canned AI/model answer of `_intelligent_fallback` (the part after the
`context_info` prefix). -/
def intelligentAiAnswer : String :=
  "For AI model questions in TDS: Use the specific model mentioned in the assignment (like gpt-3.5-turbo-0125) through the OpenAI API directly, even if proxies support different models."

/-- Canned Python answer of `_intelligent_fallback`. -/
def intelligentPyAnswer : String :=
  "For Python in TDS: Install Python 3.8+, create virtual environment with \x27python -m venv tds_env\x27, activate it, then install required packages with pip."

/-- Canned assignment answer of `_intelligent_fallback`. -/
def intelligentAssignAnswer : String :=
  "For TDS assignments: Follow the submission format, include documentation, test thoroughly, and check discourse for specific requirements and deadlines."

/-- Canned generic answer of `_intelligent_fallback`. -/
def intelligentGenericAnswer : String :=
  "For detailed help with your TDS question, please post on the discourse forum where TAs and students can provide comprehensive assistance."

/-- `ai_service.py` lines 314-322: the sentences of the first 10 pieces of
`context.split('.')` that share at least one question word (checked by
substring on the lowercased sentence) of length `> 3`, each stripped.
`question_words` is a Python set, modelled by `dedup` (`matches > 0` is
order-insensitive). -/
def relevantSentences (question context : String) : List String :=
  (((pySplitSep '.' context).take 10).filter
    (fun sentence =>
      (pySplit (pyLower question)).dedup.any
        (fun w => isSubstr w (pyLower sentence) && decide (3 < w.length)))).map pyStrip

/-- `ai_service.py` lines 310-325: the `context_info` prefix.  The Python
guard is `context and len(context) > 50`; `50 < len` already implies
non-emptiness. -/
def contextInfo (question context : String) : String :=
  if 50 < context.length then
    if relevantSentences question context = [] then ""
    else
      "Based on course materials: " ++
        String.intercalate ". " ((relevantSentences question context).take 2) ++ ". "
  else ""

/-- The canned part of `_intelligent_fallback`'s answer: each branch of the
source formats `f"{context_info}<canned>"`, so the answer is always
`context_info` followed by this bucket choice. -/
def intelligentCanned (question : String) : String :=
  if kwAny ctxAiKeywords (pyLower question) then intelligentAiAnswer
  else if kwAny ctxPythonKeywords (pyLower question) then intelligentPyAnswer
  else if kwAny ctxAssignKeywords (pyLower question) then intelligentAssignAnswer
  else intelligentGenericAnswer

/-- `MultiAIService._intelligent_fallback` (`ai_service.py` lines 306-343). -/
def intelligent_fallback (question context : String) : AnswerPayload :=
  ⟨contextInfo question context ++ intelligentCanned question,
   extract_links_from_context context⟩

/-! ## Generation Client retry loop (`ai_service.py` lines 111-141) -/

/-- Outcome of one `model.generate_content` call: a response whose `.text`
is the given string (empty models a falsy response or empty text), or a
raised exception carrying the given message. -/
inductive AttemptOutcome where
  | ok (text : String)
  | raise (msg : String)

/-- `ai_service.py` line 134: quota recognition over the lowercased error
text. -/
def isQuotaError (msg : String) : Bool :=
  isSubstr "429" (pyLower msg) || isSubstr "quota" (pyLower msg) || isSubstr "exceeded" (pyLower msg)

/-- Result of `_generate_with_retry`: the optional text it returns, the
number of attempts issued to the model, and the number of backoff
`time.sleep(1)` calls taken. -/
structure RetryResult where
  result : Option String
  attempts : Nat
  sleeps : Nat
deriving DecidableEq, Repr

/-- The `for attempt in range(max_retries)` loop of `_generate_with_retry`,
driven by an oracle giving each attempt's outcome.  A non-empty response
text returns stripped text; an empty one falls through to the next
iteration without sleeping; a quota-recognized exception breaks out of the
loop; any other exception sleeps once if an attempt remains.  Every
exception is caught, so the loop is total and ends in `none` when no
attempt succeeded. -/
def retryGo (oracle : Nat → AttemptOutcome) (maxRetries attempt sleeps : Nat) : RetryResult :=
  if attempt < maxRetries then
    match oracle attempt with
    | .ok text =>
      if text ≠ "" then ⟨some (pyStrip text), attempt + 1, sleeps⟩
      else retryGo oracle maxRetries (attempt + 1) sleeps
    | .raise msg =>
      if isQuotaError msg then ⟨none, attempt + 1, sleeps⟩
      else if attempt < maxRetries - 1 then retryGo oracle maxRetries (attempt + 1) (sleeps + 1)
      else retryGo oracle maxRetries (attempt + 1) sleeps
  else ⟨none, attempt, sleeps⟩
termination_by maxRetries - attempt

/-- `AIService._generate_with_retry` with its default `max_retries = 2`. -/
def generate_with_retry (oracle : Nat → AttemptOutcome) : RetryResult :=
  retryGo oracle 2 0 0

/-! ## Rate-Limited Orchestrator (`ai_service.py` lines 260-304) -/

/-- The mutable rate/quota fields of a `MultiAIService` instance. -/
structure MState where
  last_request_time : Nat
  min_delay : Nat
  request_count : Nat
  daily_limit : Nat
deriving DecidableEq, Repr

/-- `MultiAIService.__init__` (`ai_service.py` lines 263-268): every fresh
instance starts with count 0, limit 50, delay 5, last-call time 0. -/
def initMState : MState := ⟨0, 5, 0, 50⟩

/-- Outcome of the inner `self.gemini_service.generate_answer(...)` call. -/
inductive GeminiOutcome where
  | ok (payload : AnswerPayload)
  | raise (msg : String)

/-- What one `MultiAIService.generate_answer` call produces: the payload,
the instance state afterwards, and how many times the Generation Client
was invoked during the call. -/
structure MultiResult where
  payload : AnswerPayload
  state : MState
  geminiCalls : Nat
deriving Repr

/-- `MultiAIService.generate_answer` (`ai_service.py` lines 270-304).
Wall-clock time is a `Nat` `now`; the rate-limiting `time.sleep` makes the
effective call instant `max now (last_request_time + min_delay)`.  The
`except` around the Gemini call routes any raise to the intelligent
fallback. -/
def multi_generate_answer (st : MState) (now : Nat) (geminiInitialized : Bool)
    (gemini : GeminiOutcome) (question context : String) : MultiResult :=
  if st.daily_limit ≤ st.request_count then
    ⟨intelligent_fallback question context, st, 0⟩
  else
    let st' : MState :=
      { st with
        last_request_time := max now (st.last_request_time + st.min_delay)
        request_count := st.request_count + 1 }
    if geminiInitialized then
      match gemini with
      | .ok response =>
        if response.answer ≠ "" ∧
            isSubstr "currently unable to process" (pyLower response.answer) = false then
          ⟨response, st', 1⟩
        else ⟨intelligent_fallback question context, st', 1⟩
      | .raise _ => ⟨intelligent_fallback question context, st', 1⟩
    else ⟨intelligent_fallback question context, st', 0⟩

/-- `views.py` lines 59-68 and 88-97: each incoming request constructs its
own fresh `MultiAIService()` and answers with it, so the quota state a
request's orchestrator consults is always `initMState`. -/
def serve_request (now : Nat) (geminiInitialized : Bool) (gemini : GeminiOutcome)
    (question context : String) : MultiResult :=
  multi_generate_answer initMState now geminiInitialized gemini question context

/-! ## Orchestrator and retry theorems (C2, C3, C5) -/

/-- C2: in every orchestrator state whose recorded call count has reached
`daily_limit`, `generate_answer` invokes the Generation Client zero times
and returns the context-aware fallback payload, with the state untouched. -/
theorem C2_daily_limit_short_circuit (st : MState) (now : Nat) (ginit : Bool)
    (gemini : GeminiOutcome) (question context : String)
    (h : st.daily_limit ≤ st.request_count) :
    multi_generate_answer st now ginit gemini question context =
      ⟨intelligent_fallback question context, st, 0⟩ := by
  unfold multi_generate_answer
  rw [if_pos h]

/-- C2 witness: a state at its limit (50 recorded calls, limit 50) with an
available Gemini answer still yields the fallback and zero client calls. -/
theorem C2_daily_limit_short_circuit_witness :
    (⟨7, 5, 50, 50⟩ : MState).daily_limit ≤ (⟨7, 5, 50, 50⟩ : MState).request_count ∧
    multi_generate_answer ⟨7, 5, 50, 50⟩ 100 true (.ok ⟨"hello", []⟩) "q" "ctx" =
      ⟨intelligent_fallback "q" "ctx", ⟨7, 5, 50, 50⟩, 0⟩ :=
  ⟨by decide, C2_daily_limit_short_circuit ⟨7, 5, 50, 50⟩ 100 true (.ok ⟨"hello", []⟩) "q" "ctx"
    (by decide)⟩

/-- C5, evaluation at the failing configuration: `views.py` builds a fresh
`MultiAIService()` for every request, so the counter any request's
orchestrator consults starts at 0 and ends at 1 — two requests served by
the same process are counted against two separate per-instance counters,
never one shared `call_count`, and (with the client initialized) the
daily-limit branch can never fire no matter how many requests preceded. -/
theorem C5_quota_state_not_shared (now : Nat) (gemini : GeminiOutcome)
    (question context : String) :
    initMState.request_count = 0 ∧
    (serve_request now true gemini question context).state.request_count = 1 ∧
    (serve_request now true gemini question context).geminiCalls = 1 := by
  refine ⟨rfl, ?_⟩
  cases gemini with
  | ok response =>
    by_cases hc : response.answer ≠ "" ∧
        isSubstr "currently unable to process" (pyLower response.answer) = false
    · simp [serve_request, multi_generate_answer, initMState, hc]
    · simp [serve_request, multi_generate_answer, initMState, hc]
  | raise m =>
    simp [serve_request, multi_generate_answer, initMState]

theorem retryGo_attempts_le (oracle : Nat → AttemptOutcome) (m : Nat) :
    ∀ (gas a s : Nat), m ≤ a + gas → a ≤ m → (retryGo oracle m a s).attempts ≤ m := by
  intro gas
  induction gas with
  | zero =>
    intro a s h1 h2
    rw [retryGo, if_neg (by omega)]
    exact h2
  | succ g ih =>
    intro a s h1 h2
    by_cases ha : a < m
    · rw [retryGo, if_pos ha]
      cases h0 : oracle a with
      | ok t =>
        by_cases ht : t = ""
        · simp only [ht, ne_eq, not_true_eq_false, if_false]
          exact ih (a + 1) s (by omega) (by omega)
        · simp only [ne_eq, ht, not_false_eq_true, if_true]
          omega
      | raise msg =>
        by_cases hqe : isQuotaError msg
        · simp only [hqe, if_true]
          omega
        · by_cases hlast : a < m - 1
          · simp only [hqe, Bool.false_eq_true, if_false, hlast, if_true]
            exact ih (a + 1) (s + 1) (by omega) (by omega)
          · simp only [hqe, Bool.false_eq_true, if_false, hlast, if_false]
            exact ih (a + 1) s (by omega) (by omega)
    · rw [retryGo, if_neg ha]
      exact h2

/-- C3: a first attempt whose error text is quota-recognized (contains
`"429"`, `"quota"` or `"exceeded"` case-insensitively) aborts with no
second attempt and yields the no-result signal; a first attempt with any
other exception is retried exactly once more (2 attempts total) with one
fixed backoff sleep between them; and no run ever issues more than 2
attempts.  The loop is a total function — every attempt exception is
consumed by it, so none escapes the generation boundary. -/
theorem C3_retry_quota_short_circuit (oracle : Nat → AttemptOutcome) :
    (∀ msg, oracle 0 = .raise msg → isQuotaError msg = true →
      generate_with_retry oracle = ⟨none, 1, 0⟩) ∧
    (∀ msg, oracle 0 = .raise msg → isQuotaError msg = false →
      (generate_with_retry oracle).attempts = 2 ∧ (generate_with_retry oracle).sleeps = 1) ∧
    (generate_with_retry oracle).attempts ≤ 2 := by
  refine ⟨?_, ?_, retryGo_attempts_le oracle 2 2 0 0 (by omega) (by omega)⟩
  · intro msg h0 hq
    simp [generate_with_retry, retryGo, h0, hq]
  · intro msg h0 hq
    cases h1 : oracle 1 with
    | ok t =>
      by_cases ht : t = ""
      · simp [generate_with_retry, retryGo, h0, hq, h1, ht]
      · simp [generate_with_retry, retryGo, h0, hq, h1, ht]
    | raise m2 =>
      by_cases hq2 : isQuotaError m2
      · simp [generate_with_retry, retryGo, h0, hq, h1, hq2]
      · simp [generate_with_retry, retryGo, h0, hq, h1, hq2]

/-- C3 witness: a concrete quota-style error message on the first attempt
gives no result, exactly one attempt and no backoff sleep. -/
theorem C3_retry_quota_short_circuit_witness :
    generate_with_retry (fun _ => .raise "Error 429: You exceeded your current quota") =
      ⟨none, 1, 0⟩ :=
  (C3_retry_quota_short_circuit (fun _ => .raise "Error 429: You exceeded your current quota")).1
    "Error 429: You exceeded your current quota" rfl (by decide)

/-! ## Link extractor theorems (C6, C10) -/

theorem isPrefixOf_of_append_isPrefixOf (l₀ x l₂ : List Char)
    (h : (l₀ ++ x).isPrefixOf l₂ = true) : l₀.isPrefixOf l₂ = true := by
  induction l₀ generalizing l₂ with
  | nil => simp
  | cons a t ih =>
    cases l₂ with
    | nil => simp at h
    | cons b bs =>
      rw [List.cons_append, List.isPrefixOf_cons₂] at h
      rw [List.isPrefixOf_cons₂]
      simp only [Bool.and_eq_true] at h ⊢
      exact ⟨h.1, ih bs h.2⟩

theorem strStarts_discourseBase_of_topicHead (u : String) (h : strStarts topicHead u = true) :
    strStarts discourseBase u = true := by
  unfold strStarts at h ⊢
  have heq : topicHead.data = discourseBase.data ++ "/t/".data := rfl
  rw [heq] at h
  exact isPrefixOf_of_append_isPrefixOf _ _ _ h

theorem map_url_enum_label (urls : List String) (g : Nat × String → String) :
    ((urls.enum.map (fun p => Link.mk p.2 (g p))).map (fun l => l.url)) = urls := by
  rw [List.map_map]
  have hcomp : ((fun l : Link => l.url) ∘ fun p : Nat × String => Link.mk p.2 (g p))
      = Prod.snd := rfl
  rw [hcomp, List.enum_map_snd]

/-- A context repeating one topic URL twice before a second distinct one:
the concrete input on which the extractor's output keeps the duplicate. -/
def dupCtx : String :=
  "https://discourse.onlinedegree.iitm.ac.in/t/abc/1 https://discourse.onlinedegree.iitm.ac.in/t/abc/1 https://discourse.onlinedegree.iitm.ac.in/t/xyz/2"

set_option maxRecDepth 100000 in
/-- C6 counterexample: on `dupCtx` the regex finds `abc/1, abc/1, xyz/2`,
and `_extract_links_from_context` emits the `abc/1` link twice — duplicates
are not removed, and the first two *distinct* URLs are not what is kept. -/
theorem C6_counterexample :
    topicUrlsOf dupCtx =
      ["https://discourse.onlinedegree.iitm.ac.in/t/abc/1",
       "https://discourse.onlinedegree.iitm.ac.in/t/abc/1",
       "https://discourse.onlinedegree.iitm.ac.in/t/xyz/2"] ∧
    (extract_links_from_context dupCtx).map (fun l => l.url) =
      ["https://discourse.onlinedegree.iitm.ac.in/t/abc/1",
       "https://discourse.onlinedegree.iitm.ac.in/t/abc/1"] := by
  constructor
  · rfl
  · rfl

/-- C6 amended: `MultiAIService._extract_links_from_context` keeps the
first 2 regex matches in discovery order *without* deduplicating (falling
back to the course-forum link when none is found), while it is
`AIService._extract_relevant_links` that deduplicates (in unspecified set
order) before keeping at most 2, so its emitted urls are always
duplicate-free. -/
theorem C6_link_selection (ctx : String) :
    (topicUrlsOf ctx ≠ [] →
      (extract_links_from_context ctx).map (fun l => l.url) = (topicUrlsOf ctx).take 2) ∧
    (topicUrlsOf ctx = [] →
      extract_links_from_context ctx =
        [⟨"https://discourse.onlinedegree.iitm.ac.in/", "TDS Course Forum"⟩]) ∧
    (∀ q, ((extract_relevant_links ctx q).map (fun l => l.url)).Nodup) := by
  refine ⟨?_, ?_, ?_⟩
  · intro h
    obtain ⟨a, t, hat⟩ : ∃ a t, (topicUrlsOf ctx).take 2 = a :: t := by
      cases hu : topicUrlsOf ctx with
      | nil => exact absurd hu h
      | cons a t => exact ⟨a, (t.take 1), by simp [List.take]⟩
    unfold extract_links_from_context contextLinkCandidates
    rw [if_neg (by simp [contextLinkCandidates, hat])]
    exact map_url_enum_label _ _
  · intro h
    simp [extract_links_from_context, contextLinkCandidates, h]
  · intro q
    unfold extract_relevant_links
    split
    · split
      · simp
      · simp
    · unfold relevantLinkCandidates
      rw [map_url_enum_label]
      exact ((topicUrlsOf ctx).dedup.take_sublist 2).nodup (topicUrlsOf ctx).nodup_dedup

/-- C6 amended witness: on `dupCtx` (whose match list is non-empty) the
emitted urls are exactly the first two matches in discovery order. -/
theorem C6_link_selection_witness :
    (extract_links_from_context dupCtx).map (fun l => l.url) = (topicUrlsOf dupCtx).take 2 :=
  (C6_link_selection dupCtx).1 (by intro h; exact absurd (C6_counterexample.1 ▸ h) (by simp))

theorem extract_links_from_context_domain (ctx : String) :
    ∀ l ∈ extract_links_from_context ctx, strStarts discourseBase l.url = true := by
  intro l hl
  unfold extract_links_from_context at hl
  split at hl
  · simp only [List.mem_singleton] at hl
    subst hl
    decide
  · unfold contextLinkCandidates at hl
    obtain ⟨p, hp, hpl⟩ := List.mem_map.mp hl
    subst hpl
    apply strStarts_discourseBase_of_topicHead
    apply mem_topicUrlsOf_starts ctx
    have hmem : p.2 ∈ (topicUrlsOf ctx).take 2 := by
      rw [← List.enum_map_snd ((topicUrlsOf ctx).take 2)]
      exact List.mem_map_of_mem Prod.snd hp
    exact (topicUrlsOf ctx).take_subset 2 hmem

theorem extract_relevant_links_domain (ctx q : String) :
    ∀ l ∈ extract_relevant_links ctx q, strStarts discourseBase l.url = true := by
  intro l hl
  unfold extract_relevant_links at hl
  split at hl
  · split at hl <;>
    · simp only [List.mem_singleton] at hl
      subst hl
      decide
  · unfold relevantLinkCandidates at hl
    obtain ⟨p, hp, hpl⟩ := List.mem_map.mp hl
    subst hpl
    apply strStarts_discourseBase_of_topicHead
    apply mem_topicUrlsOf_starts ctx
    have hmem : p.2 ∈ (topicUrlsOf ctx).dedup.take 2 := by
      rw [← List.enum_map_snd ((topicUrlsOf ctx).dedup.take 2)]
      exact List.mem_map_of_mem Prod.snd hp
    exact List.mem_dedup.mp ((topicUrlsOf ctx).dedup.take_subset 2 hmem)

/-- C10: every link produced by either Link Extractor and by both Fallback
Engine tiers — extracted from context, chosen by question-keyword
category, or injected as the last-resort default — has a url beginning
with `https://discourse.onlinedegree.iitm.ac.in`. -/
theorem C10_links_domain (ctx q : String) :
    (∀ l ∈ extract_relevant_links ctx q, strStarts discourseBase l.url = true) ∧
    (∀ l ∈ extract_links_from_context ctx, strStarts discourseBase l.url = true) ∧
    (∀ l ∈ (fallback_response q).links, strStarts discourseBase l.url = true) ∧
    (∀ l ∈ (intelligent_fallback q ctx).links, strStarts discourseBase l.url = true) := by
  refine ⟨extract_relevant_links_domain ctx q, extract_links_from_context_domain ctx, ?_, ?_⟩
  · intro l hl
    unfold fallback_response at hl
    split_ifs at hl <;>
    · simp only [List.mem_singleton] at hl
      subst hl
      decide
  · intro l hl
    exact extract_links_from_context_domain ctx l hl

set_option maxRecDepth 100000 in
/-- C10 witness: the invariant instantiated on `dupCtx` at a concrete
extracted link and on the category/default links of both fallback tiers. -/
theorem C10_links_domain_witness :
    strStarts discourseBase
      (Link.mk "https://discourse.onlinedegree.iitm.ac.in/t/abc/1" "Related Discussion 1").url
      = true ∧
    strStarts discourseBase (Link.mk "https://discourse.onlinedegree.iitm.ac.in/" "TDS Course Forum").url
      = true := by
  constructor
  · exact (C10_links_domain dupCtx "q").2.1
      (Link.mk "https://discourse.onlinedegree.iitm.ac.in/t/abc/1" "Related Discussion 1")
      (by rw [show extract_links_from_context dupCtx =
            [⟨"https://discourse.onlinedegree.iitm.ac.in/t/abc/1", "Related Discussion 1"⟩,
             ⟨"https://discourse.onlinedegree.iitm.ac.in/t/abc/1", "Related Discussion 2"⟩] from by rfl]
          simp)
  · exact (C10_links_domain "" "q").2.2.1
      (Link.mk "https://discourse.onlinedegree.iitm.ac.in/" "TDS Course Forum")
      (by rw [show (fallback_response "q").links =
            [⟨"https://discourse.onlinedegree.iitm.ac.in/", "TDS Course Forum"⟩] from by rfl]
          simp)

/-! ## Fallback Engine theorems (C7, C8) -/

set_option maxRecDepth 100000 in
/-- C7 counterexample: `"git commit"` matches only the version-control
bucket of the six the claim lists (no AI/Python/assignment keyword occurs
in it), and the category fallback does answer it from the version-control
bucket — but the context-aware fallback answers it with the *generic*
bucket's answer, because `_intelligent_fallback` has no version-control
(or debugging) bucket at all. -/
theorem C7_counterexample :
    kwAny gitKeywords (pyLower "git commit") = true ∧
    kwAny ctxAiKeywords (pyLower "git commit") = false ∧
    kwAny ctxPythonKeywords (pyLower "git commit") = false ∧
    kwAny ctxAssignKeywords (pyLower "git commit") = false ∧
    (fallback_response "git commit").answer = gitAnswer ∧
    (intelligent_fallback "git commit" "").answer = intelligentGenericAnswer := by
  refine ⟨by decide, by decide, by decide, by decide, by decide, ?_⟩
  decide

/-- C7 amended: first matching bucket in a fixed order wins in both tiers,
but the two tiers check different bucket sequences: the category fallback
checks AI/model, Python/setup, assignment, version-control, debugging,
then generic; the context-aware fallback checks only AI/model (without
the bare `"ai"` keyword), Python/setup, assignment, then generic — it has
no version-control or debugging bucket.  A question containing both
`"python"` and `"api"` keywords is answered by the AI/model bucket in both
tiers. -/
theorem C7_bucket_priority (q ctx : String) :
    (kwAny aiKeywords (pyLower q) = true → (fallback_response q).answer = aiAnswer) ∧
    (kwAny aiKeywords (pyLower q) = false → kwAny pythonKeywords (pyLower q) = true →
      (fallback_response q).answer = pythonAnswer) ∧
    (kwAny aiKeywords (pyLower q) = false → kwAny pythonKeywords (pyLower q) = false →
      kwAny assignmentKeywords (pyLower q) = true →
      (fallback_response q).answer = assignmentAnswer) ∧
    (kwAny aiKeywords (pyLower q) = false → kwAny pythonKeywords (pyLower q) = false →
      kwAny assignmentKeywords (pyLower q) = false → kwAny gitKeywords (pyLower q) = true →
      (fallback_response q).answer = gitAnswer) ∧
    (kwAny aiKeywords (pyLower q) = false → kwAny pythonKeywords (pyLower q) = false →
      kwAny assignmentKeywords (pyLower q) = false → kwAny gitKeywords (pyLower q) = false →
      kwAny debugKeywords (pyLower q) = true →
      (fallback_response q).answer = debugAnswer) ∧
    (kwAny aiKeywords (pyLower q) = false → kwAny pythonKeywords (pyLower q) = false →
      kwAny assignmentKeywords (pyLower q) = false → kwAny gitKeywords (pyLower q) = false →
      kwAny debugKeywords (pyLower q) = false →
      (fallback_response q).answer = genericAnswer) ∧
    (kwAny ctxAiKeywords (pyLower q) = true →
      (intelligent_fallback q ctx).answer = contextInfo q ctx ++ intelligentAiAnswer) ∧
    (kwAny ctxAiKeywords (pyLower q) = false → kwAny ctxPythonKeywords (pyLower q) = true →
      (intelligent_fallback q ctx).answer = contextInfo q ctx ++ intelligentPyAnswer) ∧
    (kwAny ctxAiKeywords (pyLower q) = false → kwAny ctxPythonKeywords (pyLower q) = false →
      kwAny ctxAssignKeywords (pyLower q) = true →
      (intelligent_fallback q ctx).answer = contextInfo q ctx ++ intelligentAssignAnswer) ∧
    (kwAny ctxAiKeywords (pyLower q) = false → kwAny ctxPythonKeywords (pyLower q) = false →
      kwAny ctxAssignKeywords (pyLower q) = false →
      (intelligent_fallback q ctx).answer = contextInfo q ctx ++ intelligentGenericAnswer) := by
  refine ⟨?_, ?_, ?_, ?_, ?_, ?_, ?_, ?_, ?_, ?_⟩ <;>
    intros <;>
    simp [fallback_response, intelligent_fallback, intelligentCanned, *]

/-- C7 amended witness: `"python api"` holds keywords of both the AI/model
and Python/setup buckets and is answered by the AI/model bucket in both
tiers. -/
theorem C7_bucket_priority_witness :
    (fallback_response "python api").answer = aiAnswer ∧
    (intelligent_fallback "python api" "").answer =
      contextInfo "python api" "" ++ intelligentAiAnswer :=
  ⟨(C7_bucket_priority "python api" "").1 (by decide),
   (C7_bucket_priority "python api" "").2.2.2.2.2.2.1 (by decide)⟩

set_option maxRecDepth 100000 in
/-- C8 counterexample: with question `"python"` and the 18-character
context `"python setup guide"`, that context holds a qualifying sentence
(it shares the question word `"python"`, of length `> 3`), yet the
context-aware fallback returns the canned Python answer with no prefix,
because mining only runs when the context is longer than 50 characters —
a guard the claim omits. -/
theorem C8_counterexample :
    relevantSentences "python" "python setup guide" = ["python setup guide"] ∧
    contextInfo "python" "python setup guide" = "" ∧
    (intelligent_fallback "python" "python setup guide").answer = intelligentPyAnswer := by
  refine ⟨by decide, by decide, by decide⟩

/-- C8 amended: *when the context is longer than 50 characters*, the
context-aware fallback examines at most the first 10 sentences of the
context, selects those sharing at least one question word longer than 3
characters, and prefixes at most 2 such sentences to the canned category
answer; when the context is 50 characters or shorter, or no sentence
qualifies, the canned answer is returned unprefixed. -/
theorem C8_context_mining (q ctx : String) :
    (ctx.length ≤ 50 → contextInfo q ctx = "") ∧
    (relevantSentences q ctx = [] → contextInfo q ctx = "") ∧
    ((relevantSentences q ctx).take 2).length ≤ 2 ∧
    (∀ s ∈ relevantSentences q ctx, ∃ s0 ∈ (pySplitSep '.' ctx).take 10,
      s = pyStrip s0 ∧
      ((pySplit (pyLower q)).dedup.any
        (fun w => isSubstr w (pyLower s0) && decide (3 < w.length))) = true) ∧
    (50 < ctx.length → relevantSentences q ctx ≠ [] →
      (intelligent_fallback q ctx).answer =
        "Based on course materials: " ++
          String.intercalate ". " ((relevantSentences q ctx).take 2) ++ ". " ++
          intelligentCanned q) ∧
    (relevantSentences q ctx = [] →
      (intelligent_fallback q ctx).answer = intelligentCanned q) := by
  refine ⟨?_, ?_, ?_, ?_, ?_, ?_⟩
  · intro h
    unfold contextInfo
    rw [if_neg (by omega)]
  · intro h
    simp [contextInfo, h]
  · have := List.length_take 2 (relevantSentences q ctx)
    omega
  · intro s hs
    unfold relevantSentences at hs
    obtain ⟨s0, hs0, hstrip⟩ := List.mem_map.mp hs
    obtain ⟨hmem, hpred⟩ := List.mem_filter.mp hs0
    exact ⟨s0, hmem, hstrip.symm, hpred⟩
  · intro hlen hne
    unfold intelligent_fallback contextInfo
    rw [if_pos hlen, if_neg hne]
  · intro h
    simp [intelligent_fallback, contextInfo, h]

set_option maxRecDepth 100000 in
/-- C8 amended witness: a 62-character single-sentence context sharing the
word `"python"` with the question is prefixed to the canned answer. -/
theorem C8_context_mining_witness :
    (intelligent_fallback "python"
        "python environment setup for the course requires version three").answer =
      "Based on course materials: " ++
        String.intercalate ". "
          ((relevantSentences "python"
            "python environment setup for the course requires version three").take 2) ++ ". " ++
        intelligentCanned "python" :=
  (C8_context_mining "python"
      "python environment setup for the course requires version three").2.2.2.2.1
    (by decide) (by decide)

/-! ## Relevance Scorer (`data_scraper.py` lines 155-243) -/

/-- A Content Store document: `data_scraper.py` course-content sections
`{title, content, topics}` (the dict key is only the iteration handle). -/
structure Document where
  title : String
  content : String
  topics : List String
deriving DecidableEq, Repr

/-- A forum-post record of the Content Store (`data_scraper.py` lines
97-148). -/
structure ForumPost where
  id : String
  title : String
  url : String
  content : String
  tags : List String
  category : String
  created_at : String
  replies : Nat
deriving DecidableEq, Repr

/-- `_search_course_content` lines 190-196: a topic tag matches when it is
a *substring* of the whole lowercased question (`topic in question_lower`);
content matches count the distinct question words (the Python set) that
are substrings of the lowercased content; score is
`topic_matches * 2 + content_matches`. -/
def documentScore (questionLower : String) (d : Document) : Nat :=
  2 * d.topics.countP (fun topic => isSubstr topic questionLower) +
    (pySplit questionLower).dedup.countP (fun w => isSubstr w (pyLower d.content))

/-- `_search_discourse_posts` lines 222-231: `tag_matches * 3 +
title_matches * 2 + content_matches`, with the same substring semantics. -/
def postScore (questionLower : String) (p : ForumPost) : Nat :=
  3 * p.tags.countP (fun tag => isSubstr tag questionLower) +
    2 * (pySplit questionLower).dedup.countP (fun w => isSubstr w (pyLower p.title)) +
    (pySplit questionLower).dedup.countP (fun w => isSubstr w (pyLower p.content))

/-- The claim's reading of the tag clause, for comparison: a tag matches
exactly when it is a member of the question's word set. -/
def documentScoreSpec (questionLower : String) (d : Document) : Nat :=
  2 * d.topics.countP (fun topic => (pySplit questionLower).dedup.contains topic) +
    (pySplit questionLower).dedup.countP (fun w => isSubstr w (pyLower d.content))

/-- The claim's reading for posts: tags matched member-wise. -/
def postScoreSpec (questionLower : String) (p : ForumPost) : Nat :=
  3 * p.tags.countP (fun tag => (pySplit questionLower).dedup.contains tag) +
    2 * (pySplit questionLower).dedup.countP (fun w => isSubstr w (pyLower p.title)) +
    (pySplit questionLower).dedup.countP (fun w => isSubstr w (pyLower p.content))

/-- `_search_course_content` line 199 rendering. -/
def renderDocument (d : Document) : String :=
  "Course Material - " ++ d.title ++ ":\n" ++ pyStrip d.content

/-- `_search_course_content` lines 185-199: positive-score documents with
their scores, in load order. -/
def scoredDocuments (docs : List Document) (questionLower : String) : List (Nat × String) :=
  docs.filterMap (fun d =>
    if 0 < documentScore questionLower d then
      some (documentScore questionLower d, renderDocument d)
    else none)

/-- `_search_course_content` lines 202-203: stable sort descending by
score (Python `list.sort(key=..., reverse=True)` is stable; so is
`mergeSort`), keep 3, render. -/
def search_course_content (docs : List Document) (questionLower : String) : List String :=
  ((scoredDocuments docs questionLower).mergeSort
      (fun a b => decide (b.1 ≤ a.1))).take 3 |>.map (fun pr => pr.2)

/-- `_search_discourse_posts` line 234 rendering. -/
def renderPost (p : ForumPost) : String :=
  "Discourse Post: " ++ p.title ++ "\nURL: " ++ p.url ++ "\nContent: " ++ p.content ++
    "\nTags: " ++ String.intercalate ", " p.tags

/-- `_search_discourse_posts` lines 216-235. -/
def scoredPosts (posts : List ForumPost) (questionLower : String) : List (Nat × String) :=
  posts.filterMap (fun p =>
    if 0 < postScore questionLower p then
      some (postScore questionLower p, renderPost p)
    else none)

/-- `_search_discourse_posts` lines 238-239. -/
def search_discourse_posts (posts : List ForumPost) (questionLower : String) : List String :=
  ((scoredPosts posts questionLower).mergeSort
      (fun a b => decide (b.1 ≤ a.1))).take 3 |>.map (fun pr => pr.2)

/-- `search_relevant_content` (`data_scraper.py` lines 155-176): lowercase
the question, search both stores, keep 5 blocks joined by blank lines, and
fall back to the sentinel when nothing scored. -/
def search_relevant_content (docs : List Document) (posts : List ForumPost)
    (question : String) : String :=
  if String.intercalate "\n\n"
      ((search_course_content docs (pyLower question) ++
        search_discourse_posts posts (pyLower question)).take 5) = "" then
    "No specific course content found for this question."
  else
    String.intercalate "\n\n"
      ((search_course_content docs (pyLower question) ++
        search_discourse_posts posts (pyLower question)).take 5)

/-- C4 counterexample: for the question `"rapid"` and a document or post
tagged `"api"`, the code scores a tag match — `"api"` is a substring of
`"rapid"` — although `"api"` is not a member of the question's word set
`{"rapid"}`, so the claimed member-wise formula gives a different score. -/
theorem C4_counterexample :
    documentScore "rapid" ⟨"API Usage", "x", ["api"]⟩ = 2 ∧
    documentScoreSpec "rapid" ⟨"API Usage", "x", ["api"]⟩ = 0 ∧
    documentScore "rapid" ⟨"API Usage", "x", ["api"]⟩ ≠
      documentScoreSpec "rapid" ⟨"API Usage", "x", ["api"]⟩ ∧
    postScore "rapid" ⟨"1", "t", "u", "x", ["api"], "c", "d", 0⟩ = 3 ∧
    postScoreSpec "rapid" ⟨"1", "t", "u", "x", ["api"], "c", "d", 0⟩ = 0 := by
  refine ⟨by decide, by decide, by decide, by decide, by decide⟩

/-- C4 amended: the Relevance Scorer computes each Document's score as
`2 × (#topic tags that are substrings of the lowercased question)
+ (#distinct question words that are substrings of the content)`, and each
ForumPost's score as `3 × (#tags that are substrings of the question)
+ 2 × (#question words in the title) + (#question words in the body)` —
tag matching is substring containment in the whole question string, not
membership in the question's word set — and every scored item the
searches keep carries exactly that score, which is positive. -/
theorem C4_scoring (questionLower : String) (docs : List Document) (posts : List ForumPost) :
    (∀ d : Document, documentScore questionLower d =
        2 * d.topics.countP (fun topic => isSubstr topic questionLower) +
          (pySplit questionLower).dedup.countP (fun w => isSubstr w (pyLower d.content))) ∧
    (∀ p : ForumPost, postScore questionLower p =
        3 * p.tags.countP (fun tag => isSubstr tag questionLower) +
          2 * (pySplit questionLower).dedup.countP (fun w => isSubstr w (pyLower p.title)) +
          (pySplit questionLower).dedup.countP (fun w => isSubstr w (pyLower p.content))) ∧
    (∀ pr ∈ scoredDocuments docs questionLower, ∃ d ∈ docs,
        pr.1 = documentScore questionLower d ∧ 0 < pr.1) ∧
    (∀ pr ∈ scoredPosts posts questionLower, ∃ p ∈ posts,
        pr.1 = postScore questionLower p ∧ 0 < pr.1) := by
  refine ⟨fun d => rfl, fun p => rfl, ?_, ?_⟩
  · intro pr hpr
    obtain ⟨d, hd, hfd⟩ := List.mem_filterMap.mp hpr
    refine ⟨d, hd, ?_⟩
    split at hfd
    · next hpos =>
      injection hfd with hfd
      subst hfd
      exact ⟨rfl, hpos⟩
    · exact absurd hfd (by simp)
  · intro pr hpr
    obtain ⟨p, hp, hfp⟩ := List.mem_filterMap.mp hpr
    refine ⟨p, hp, ?_⟩
    split at hfp
    · next hpos =>
      injection hfp with hfp
      subst hfp
      exact ⟨rfl, hpos⟩
    · exact absurd hfp (by simp)

/-- C4 amended witness: a document tagged `"python"` with content
`"python content"` scores `2 × 1 + 1 = 3` on the question `"python"`, and
the scored list carries exactly that. -/
theorem C4_scoring_witness :
    ∃ d ∈ [(⟨"t", "python content", ["python"]⟩ : Document)],
      ((3 : Nat), "Course Material - t:\npython content").1 = documentScore "python" d ∧
      0 < ((3 : Nat), "Course Material - t:\npython content").1 :=
  (C4_scoring "python" [⟨"t", "python content", ["python"]⟩] []).2.2.1
    (3, "Course Material - t:\npython content") (by decide)

end VirtualTA
